import Mathlib

/-!
# Verification of the SpaceRace simulation and networking core

A shallow embedding, over exact rationals, of the parts of the SpaceRace
client/server code that the specification's claims concern:

* the asteroid object pool (`getAsteroidFromPool`, `returnAsteroidToPool`,
  `src/client.js`),
* the collision/damage resolver (`handleAsteroidCollision`) and the effective
  per-frame asteroid update (the second `updateAsteroids` definition, which in
  JavaScript shadows the first),
* asteroid spawn placement (`spawnAsteroid`),
* the difficulty controller (`updateDifficulty`, `increaseSpeedFixed`),
* the WebSocket server relay (`src/server.js`) and the client-side network
  reconciliation (`NetworkManager.handleMessage`, `src/network.js`).

JavaScript numbers are modelled by `ℚ` (the code performs only arithmetic in
the ranges where binary floating point is exact or where the exact-rational
value determines the control flow), timestamps (`Date.now()`) by `ℤ`, and
`undefined` numeric fields by the value `0` (which is falsy in JavaScript
exactly as `undefined` is, matching every truthiness test in the embedded
code).  Square roots (`THREE.Vector3.length`/`distanceTo`/`normalize`) are
modelled by `ratSqrt`, the exact rational square root, which agrees with the
JavaScript computation whenever the radicand is a perfect rational square;
all concrete evaluations below take place at such inputs, and comparisons of
distances against nonnegative thresholds are modelled on squared distances,
which is order-equivalent.
-/

namespace SpaceRace

/-- Exact rational square root: `ratSqrt q = r` when `0 ≤ r` and `r * r = q`,
and `0` when `q` is not a perfect rational square.  Models `Math.sqrt` at the
perfect-square inputs used in the concrete evaluations below. -/
def ratSqrt (q : ℚ) : ℚ :=
  let n := q.num.toNat
  let d := q.den
  if Nat.sqrt n * Nat.sqrt n = n ∧ Nat.sqrt d * Nat.sqrt d = d then
    (Nat.sqrt n : ℚ) / (Nat.sqrt d : ℚ)
  else 0

/-- 3-component vector over `ℚ`, modelling `THREE.Vector3`. -/
structure Vec3 where
  x : ℚ
  y : ℚ
  z : ℚ
deriving DecidableEq, Repr

namespace Vec3

def add (a b : Vec3) : Vec3 := ⟨a.x + b.x, a.y + b.y, a.z + b.z⟩

def sub (a b : Vec3) : Vec3 := ⟨a.x - b.x, a.y - b.y, a.z - b.z⟩

def smul (c : ℚ) (a : Vec3) : Vec3 := ⟨c * a.x, c * a.y, c * a.z⟩

def zero : Vec3 := ⟨0, 0, 0⟩

/-- Squared Euclidean norm. -/
def normSq (a : Vec3) : ℚ := a.x * a.x + a.y * a.y + a.z * a.z

/-- Squared distance between two points; models
`THREE.Vector3.distanceToSquared`. -/
def distSq (a b : Vec3) : ℚ := normSq (sub a b)

/-- Euclidean length, via the exact rational square root; models
`THREE.Vector3.length` at rational-norm inputs. -/
def len (a : Vec3) : ℚ := ratSqrt (normSq a)

/-- Models `THREE.Vector3.normalize`, which divides by `length() || 1`
(so the zero vector is left unchanged). -/
def normalize (a : Vec3) : Vec3 :=
  let l := len a
  if l = 0 then a else smul (1 / l) a

end Vec3

/-! ## Network data model (`server.js`, `network.js`)

Player identifiers (`Date.now().toString()` on the server) are modelled as
natural numbers; the players map is an association list.  Display names are
irrelevant to every claim and are omitted. -/

/-- A player record as stored in the server's `players` map (`server.js`,
`join` handler) and mirrored in the client's `gameState.players`. -/
structure Player where
  ready : Bool
  position : Vec3
  rotation : Vec3
  health : ℚ
  score : ℚ
deriving DecidableEq, Repr

/-- The players map: an association list keyed by player id. -/
abbrev PlayerMap := List (ℕ × Player)

/-- `players[pid]` — lookup in the players map. -/
def lookupPlayer (m : PlayerMap) (pid : ℕ) : Option Player :=
  (m.find? (fun e => e.1 = pid)).map Prod.snd

/-- In-place field mutation of `players[pid]` (a no-op when absent, matching
the guards in the source). -/
def setPlayer (m : PlayerMap) (pid : ℕ) (p : Player) : PlayerMap :=
  m.map (fun e => if e.1 = pid then (pid, p) else e)

/-- The wire messages of the protocol, by their `type` string.  The
constructors cover every `type` the server emits (`joined`, `gameStart`,
`gameState`, `gameLost`: `server.js`) and every `type` the client's
`NetworkManager.handleMessage` switches on (`connected`, `joined`,
`playersUpdated`, `gameStarted`, `gameStateUpdated`, `countdown`, `gameOver`:
`network.js`).  Payload fields irrelevant to the claims are dropped. -/
inductive NetMsg where
  | joined (id : ℕ) (players : PlayerMap)
  | gameStart
  | gameState (players : PlayerMap) (gameStarted : Bool)
  | gameLost
  | connected (playerId : ℕ)
  | playersUpdated (players : PlayerMap)
  | gameStarted
  | gameStateUpdated (players : PlayerMap) (gameStarted : Bool)
  | countdown (timeLeft : ℚ)
  | gameOver (winner : Option ℕ)
deriving DecidableEq, Repr

/-! ## Server relay (`server.js`) -/

/-- The server's mutable globals: `players`, `readyPlayers`, `gameStarted`. -/
structure ServerState where
  players : PlayerMap
  readyPlayers : ℤ
  gameStarted : Bool
deriving DecidableEq, Repr

/-- `broadcastGameState` (`server.js:229`): the `gameState` message fanned out
to every open connection. -/
def broadcastGameState (st : ServerState) : NetMsg :=
  NetMsg.gameState st.players st.gameStarted

/-- The result of one server message-handler run: the new globals, the
messages sent only to the sender's socket, and the messages broadcast to
every open connection. -/
structure ServerStep where
  state : ServerState
  toSender : List NetMsg
  toAll : List NetMsg
deriving DecidableEq, Repr

/-- The `ready` branch of the server's message handler (`server.js:167`):
marks the sender ready, increments `readyPlayers`, and, when
`readyPlayers >= 2 && !gameStarted`, sets `gameStarted` and broadcasts a
`gameStart` message to every open connection, followed by
`broadcastGameState()`.  The source reads `players[playerId].ready = true`
with no existence check, so the embedding is stated for a present sender
(the handler only runs with the `playerId` assigned on `join`). -/
def serverHandleReady (pid : ℕ) (st : ServerState) : ServerStep :=
  match lookupPlayer st.players pid with
  | none => ⟨st, [], []⟩
  | some p =>
    let players' := setPlayer st.players pid { p with ready := true }
    let ready' := st.readyPlayers + 1
    let starts := ready' ≥ 2 ∧ st.gameStarted = false
    let st' : ServerState :=
      { players := players', readyPlayers := ready',
        gameStarted := if starts then true else st.gameStarted }
    { state := st'
      toSender := []
      toAll := (if starts then [NetMsg.gameStart] else []) ++
        [broadcastGameState st'] }

/-- The payload of a client→server `update` message. -/
structure UpdateMsg where
  position : Vec3
  rotation : Vec3
  health : ℚ
  score : ℚ
deriving DecidableEq, Repr

/-- The `update` branch of the server's message handler (`server.js:188`):
overwrites the sender's stored position/rotation/health/score with the
incoming data, then — reading the freshly overwritten record — checks
`data.health <= 0 && players[playerId].health > 0` and sends `gameLost` to
the sender when it holds, and finally rebroadcasts the full game state. -/
def serverHandleUpdate (pid : ℕ) (data : UpdateMsg) (st : ServerState) :
    ServerStep :=
  match lookupPlayer st.players pid with
  | none => ⟨st, [], []⟩
  | some p =>
    let players' := setPlayer st.players pid
      { p with position := data.position, rotation := data.rotation,
               health := data.health, score := data.score }
    let storedHealth := ((lookupPlayer players' pid).map Player.health).getD 0
    let st' : ServerState := { st with players := players' }
    { state := st'
      toSender := if data.health ≤ 0 ∧ storedHealth > 0
        then [NetMsg.gameLost] else []
      toAll := [broadcastGameState st'] }

/-! ## Client-side reconciliation (`network.js` with the `client.js` listeners)

`GameClient.setupNetworking` (`client.js:2250`) shares one `gameState` object
with the `NetworkManager` and registers event listeners; the listeners that
mutate simulation state (as opposed to DOM/render state) are folded into the
message handler below: the `connected` listener re-runs `initAsteroidSystem`
(which sets `difficultyLevel = 1`), and the `gameStarted` listener resets
`difficultyLevel` to 1 and `localPlayer.distanceTraveled` to 0. -/

/-- The client-side game session state: the `gameState` object shared between
`GameClient` and `NetworkManager`, together with the `NetworkManager.playerId`
and the `GameClient` difficulty/distance fields touched by the listeners. -/
structure ClientState where
  playerId : Option ℕ
  players : PlayerMap
  isRunning : Bool
  gameStartedField : Bool
  winner : Option ℕ
  difficultyLevel : ℤ
  distanceTraveled : ℚ
deriving DecidableEq, Repr

/-- Client→server messages sent from inside the client's message handler. -/
inductive ClientOutMsg where
  | startGame
deriving DecidableEq, Repr

/-- The `gameStateUpdated` branch of `NetworkManager.handleMessage`
(`network.js:89-112`): saves a reference to the local player's record,
overwrites the session state wholesale with the broadcast data
(`Object.assign`), then — when both the saved record and the incoming record
for the local player exist — re-applies the saved local position and rotation
while keeping the server's health value. -/
def clientMergeGameState (players : PlayerMap) (started : Bool)
    (c : ClientState) : ClientState :=
  let localPlayerData :=
    match c.playerId with
    | some pid => lookupPlayer c.players pid
    | none => none
  let c₁ := { c with players := players, gameStartedField := started }
  match c.playerId, localPlayerData with
  | some pid, some lp =>
    match lookupPlayer c₁.players pid with
    | some sp =>
      let serverHealth := sp.health
      let merged := { sp with position := lp.position, rotation := lp.rotation,
                              health := serverHealth }
      { c₁ with players := setPlayer c₁.players pid merged }
    | none => c₁
  | _, _ => c₁

/-- `NetworkManager.handleMessage` (`network.js:49-124`) together with the
state-mutating `GameClient` listeners it triggers.  A message whose `type`
matches no `case` of the source `switch` — in particular the `gameStart`,
`gameState` and `gameLost` messages this repository's server actually sends —
leaves the client state untouched.  The `playersUpdated` branch additionally
auto-sends `startGame` when at least two players are present, all are ready,
and the smallest player id is the local player. -/
def clientHandleMessage (msg : NetMsg) (c : ClientState) :
    ClientState × List ClientOutMsg :=
  match msg with
  | NetMsg.connected pid =>
    ({ c with playerId := some pid, difficultyLevel := 1 }, [])
  | NetMsg.joined pid players =>
    -- sets `playerId` and the players map, then triggers the `connected`
    -- listener (which re-runs `initAsteroidSystem`, resetting difficulty)
    ({ c with playerId := some pid, players := players,
              difficultyLevel := 1 }, [])
  | NetMsg.playersUpdated players =>
    let c' := { c with players := players }
    let allReady := players.length ≥ 2 ∧ ∀ e ∈ players, e.2.ready = true
    -- `Object.keys(data.players).sort()[0] === this.playerId`
    let isHost := (players.map Prod.fst).min? = c.playerId ∧ c.playerId ≠ none
    if allReady ∧ isHost then (c', [ClientOutMsg.startGame]) else (c', [])
  | NetMsg.gameStarted =>
    -- `network.js:83-87` sets `isRunning`; the `client.js:2274` listener then
    -- resets `difficultyLevel` and `localPlayer.distanceTraveled`
    ({ c with isRunning := true, difficultyLevel := 1,
              distanceTraveled := 0 }, [])
  | NetMsg.gameStateUpdated players started =>
    (clientMergeGameState players started c, [])
  | NetMsg.countdown _ => (c, [])
  | NetMsg.gameOver w =>
    ({ c with isRunning := false, winner := w }, [])
  | NetMsg.gameStart => (c, [])
  | NetMsg.gameState _ _ => (c, [])
  | NetMsg.gameLost => (c, [])

/-! ## Stable sorting by a key

`Array.prototype.sort` with a numeric comparator is a stable comparison sort;
it is modelled by stable insertion sort on a key. -/

/-- Insert `a` into `l`, before the first element with a key not smaller than
`a`'s (stable insertion). -/
def insertByKey {α β : Type} [LinearOrder β] (key : α → β) (a : α) :
    List α → List α
  | [] => [a]
  | b :: t => if key a ≤ key b then a :: b :: t else b :: insertByKey key a t

/-- Stable insertion sort by a key; models `Array.prototype.sort` with the
comparator `(x, y) => key(x) - key(y)`. -/
def sortByKey {α β : Type} [LinearOrder β] (key : α → β) :
    List α → List α
  | [] => []
  | a :: t => insertByKey key a (sortByKey key t)

/-! ## Asteroid pool and collision resolver (`client.js`) -/

/-- A pooled asteroid slot.  `creationTime = 0` models the JavaScript
`undefined` of a slot that has never been stamped (both are falsy).
`inactiveFlag` models the write-only `inactive` property assigned in
`handleAsteroidCollision` (`client.js:1404`), which is distinct from the
pool's `active` flag.  Render-only fields (mesh, materials, rotation,
rotation speed) are not part of the simulation state. -/
structure Asteroid where
  id : ℕ
  active : Bool
  inactiveFlag : Bool
  creationTime : ℤ
  pos : Vec3
  vel : Vec3
  size : ℚ
  targetingFactor : ℚ
  targetingSpeed : ℚ
  isHunter : Bool
  isEmergency : Bool
deriving DecidableEq, Repr

/-- A fresh pool slot as created by the expansion branch of
`getAsteroidFromPool` (`client.js:476-555`): inactive, with no creation
stamp.  The randomized visual scale and rotation speed belong to the
excluded rendering layer and are fixed to defaults. -/
def newAsteroid (idv : ℕ) : Asteroid :=
  { id := idv, active := false, inactiveFlag := false, creationTime := 0,
    pos := Vec3.zero, vel := Vec3.zero, size := 0, targetingFactor := 0,
    targetingSpeed := 0, isHunter := false, isEmergency := false }

/-- The `GameClient` simulation state touched by the pool, collision and
game-over code: the active list `this.asteroids`, the free list
`this.inactiveAsteroids`, `localPlayer.health`,
`localPlayer.lastCollisionTime` (`0` models the initial `undefined`),
`localPlayer.eliminated`, `gameState.isRunning`,
`network.singlePlayerMode`, and a count of `network.gameOver()`
notifications sent. -/
structure SimState where
  asteroids : List Asteroid
  inactiveAsteroids : List Asteroid
  health : ℚ
  lastCollisionTime : ℤ
  eliminated : Bool
  isRunning : Bool
  singlePlayerMode : Bool
  gameOverSent : ℕ
deriving DecidableEq, Repr

/-- `getAsteroidFromPool` (`client.js:435-584`).  `now` is `Date.now()`;
`freshId` numbers the slots created by a pool expansion.  Returns the
acquired slot (`none` only on the source's "critical pool failure" path)
and the updated pool.  The three branches mirror the source: reuse the
last free slot; else if the total slot count is below the hard limit 350,
expand by `Math.max(10, Math.floor(total * 0.2))` slots, activate the
first new slot and return it (`this.asteroids[this.asteroids.length-1]`);
else sort the active list by `creationTime` (only when the first element
has a truthy stamp), shift off the oldest, re-stamp and re-activate it. -/
def getAsteroidFromPool (now : ℤ) (freshId : ℕ) (s : SimState) :
    Option Asteroid × SimState :=
  match s.inactiveAsteroids.getLast? with
  | some a =>
    let a' := { a with active := true }
    (some a', { s with inactiveAsteroids := s.inactiveAsteroids.dropLast,
                       asteroids := s.asteroids ++ [a'] })
  | none =>
    let total := s.asteroids.length + s.inactiveAsteroids.length
    if total < 350 then
      let expansionSize := max 10 (total / 5)
      let base := newAsteroid freshId
      let first := { base with active := true, creationTime := now }
      let rest := (List.range (expansionSize - 1)).map
        (fun i => newAsteroid (freshId + 1 + i))
      let s' := { s with asteroids := s.asteroids ++ [first],
                         inactiveAsteroids := s.inactiveAsteroids ++ rest }
      (s'.asteroids.getLast?, s')
    else
      match s.asteroids with
      | [] => (none, s)
      | a0 :: _ =>
        let sorted := if a0.creationTime ≠ 0
          then sortByKey (fun a => a.creationTime) s.asteroids
          else s.asteroids
        match sorted with
        | [] => (none, s)
        | old :: restA =>
          let recycled := { old with creationTime := now, active := true }
          (some recycled, { s with asteroids := restA ++ [recycled] })

/-- `returnAsteroidToPool` (`client.js:587-602`): splice the slot out of the
active list (first occurrence, if present), clear its `active` flag, and
push it onto the free list. -/
def returnAsteroidToPool (a : Asteroid) (s : SimState) : SimState :=
  let asteroids' := s.asteroids.erase a
  let a' := { a with active := false }
  { s with asteroids := asteroids',
           inactiveAsteroids := s.inactiveAsteroids ++ [a'] }

/-- `handleAsteroidCollision` (`client.js:1386-1494`).  When the previous
hit is more than 150 ms old (or no hit was recorded), applies the fixed
damage of 10 clamped at 0, stamps the cooldown clock, marks the colliding
asteroid with the (write-only) `inactive` property, splices it out of the
active list, and, when health has reached 0, stops the game, marks the
player eliminated, and sends the network `gameOver` notification (in
multiplayer).  Within the cooldown window nothing at all happens.  Returns
the new state and the mutated asteroid object (`none` when the hit was
swallowed by the cooldown).  DOM, audio and explosion effects belong to the
excluded rendering layer. -/
def handleAsteroidCollision (now : ℤ) (a : Asteroid) (s : SimState) :
    SimState × Option Asteroid :=
  if s.lastCollisionTime = 0 ∨ now - s.lastCollisionTime > 150 then
    let health' := max 0 (s.health - 10)
    let a' := { a with inactiveFlag := true }
    let s₁ := { s with health := health', lastCollisionTime := now,
                       asteroids := s.asteroids.erase a }
    if health' ≤ 0 then
      ({ s₁ with isRunning := false, eliminated := true,
                 gameOverSent := if s.singlePlayerMode then s₁.gameOverSent
                                 else s₁.gameOverSent + 1 }, some a')
    else (s₁, some a')
  else (s, none)

/-! ## The effective per-frame asteroid update (second `updateAsteroids`
definition, `client.js:3986-4102`; in a JavaScript class the later of two
methods with the same name is the one bound).

Distance comparisons against nonnegative thresholds are carried out on
squared distances, which is order-equivalent to the source's
`distanceTo` comparisons. -/

/-- `sqrt dSq < c` for `dSq ≥ 0`, expressed on squares. -/
def distLT (dSq c : ℚ) : Prop := 0 < c ∧ dSq < c ^ 2

/-- `sqrt dSq > c` for `dSq ≥ 0`, expressed on squares. -/
def distGT (dSq c : ℚ) : Prop := c < 0 ∨ c ^ 2 < dSq

instance (dSq c : ℚ) : Decidable (distLT dSq c) := by
  unfold distLT; infer_instance

instance (dSq c : ℚ) : Decidable (distGT dSq c) := by
  unfold distGT; infer_instance

/-- `10 + (asteroid.size || 1) * 0.7` (`client.js:4072`). -/
def collisionThreshold (a : Asteroid) : ℚ :=
  10 + (if a.size = 0 then 1 else a.size) * (7/10)

/-- `2000 + playerSpeed * 200` (`client.js:4078`). -/
def maxDistance2 (playerSpeed : ℚ) : ℚ := 2000 + playerSpeed * 200

/-- `Math.max(0.5, Math.min(2.0, 500 / Math.max(10, distance)))`
(`client.js:4042`). -/
def proximityFactor2 (distance : ℚ) : ℚ :=
  max (1/2) (min 2 (500 / max 10 distance))

/-- `asteroid.targetingFactor * 0.012 * proximityFactor` (`client.js:4045`):
the adjustment strength of the effective update.  Note it involves neither
`targetingSpeed` nor an accuracy jitter. -/
def adjustmentStrength2 (targetingFactor distance : ℚ) : ℚ :=
  targetingFactor * (12/1000) * proximityFactor2 distance

/-- The per-asteroid motion step of the effective update
(`client.js:4033-4059`): when `targetingFactor > 0`, blend the current
velocity direction with the direction to the player by the adjustment
strength, renormalize, and rescale by `0.2 + playerSpeed * 0.03`; then add
the velocity to the position. -/
def moveAsteroid (playerPos : Vec3) (playerSpeed : ℚ) (a : Asteroid) :
    Asteroid :=
  let a₁ :=
    if a.targetingFactor > 0 then
      let toPlayer := Vec3.normalize (Vec3.sub playerPos a.pos)
      let currentDir := Vec3.normalize a.vel
      let distance := ratSqrt (Vec3.distSq a.pos playerPos)
      let adj := adjustmentStrength2 a.targetingFactor distance
      let newDir := Vec3.normalize
        (Vec3.add (Vec3.smul (1 - adj) currentDir) (Vec3.smul adj toPlayer))
      let speedFactor := 1/5 + playerSpeed * (3/100)
      { a with vel := Vec3.smul speedFactor newDir }
    else a
  { a₁ with pos := Vec3.add a₁.pos a₁.vel }

/-- The `for (let i = this.asteroids.length - 1; i >= 0; i--)` loop of the
effective update (`client.js:4015-4084`): per index, move the asteroid,
write it back, record it as a collision candidate when its post-move
distance is below the collision threshold, and, when it is out of range
and not an emergency asteroid, call `returnAsteroidToPool` (which splices
it out itself) followed by the loop's own `splice(i, 1)` — the source's
double splice, reproduced as is. -/
def updateLoop (playerPos : Vec3) (playerSpeed : ℚ) :
    ℕ → SimState → List Asteroid → SimState × List Asteroid
  | 0, s, cands => (s, cands)
  | (i+1), s, cands =>
    match s.asteroids.get? i with
    | none => updateLoop playerPos playerSpeed i s cands
    | some a =>
      let a' := moveAsteroid playerPos playerSpeed a
      let s₁ := { s with asteroids := s.asteroids.set i a' }
      let dSq := Vec3.distSq a'.pos playerPos
      let cands' := if distLT dSq (collisionThreshold a')
        then cands ++ [a'] else cands
      if distGT dSq (maxDistance2 playerSpeed) ∧ a'.isEmergency = false then
        let s₂ := returnAsteroidToPool a' s₁
        let s₃ := { s₂ with asteroids := s₂.asteroids.eraseIdx i }
        updateLoop playerPos playerSpeed i s₃ cands'
      else updateLoop playerPos playerSpeed i s₁ cands'

/-- The collision candidates collected by one run of the effective update's
motion loop. -/
def collisionCandidates (playerPos : Vec3) (playerSpeed : ℚ)
    (s : SimState) : List Asteroid :=
  (updateLoop playerPos playerSpeed s.asteroids.length s []).2

/-- The effective `updateAsteroids` (`client.js:3986-4102`): an early return
when the game is not running; otherwise the motion/candidate loop, then —
when any candidates exist — sort them by distance to the player and call
`handleAsteroidCollision` on the first (closest) one only.  Returns the new
state together with the list of asteroids actually passed to
`handleAsteroidCollision` during the tick. -/
def updateAsteroids2 (now : ℤ) (playerPos : Vec3) (playerSpeed : ℚ)
    (s : SimState) : SimState × List Asteroid :=
  if s.isRunning = false then (s, [])
  else
    let s₁ := (updateLoop playerPos playerSpeed s.asteroids.length s []).1
    match sortByKey (fun a => Vec3.distSq a.pos playerPos)
        (collisionCandidates playerPos playerSpeed s) with
    | [] => (s₁, [])
    | c :: _ => ((handleAsteroidCollision now c s₁).1, [c])

/-! ## Spawn placement (`spawnAsteroid`, `client.js:605-872`)

The position actually assigned to a freshly spawned asteroid, as a function
of the random draws.  The source contains no use of
`this.minimumAsteroidSpacing` (set once in `initAsteroidSystem`,
`client.js:327`, and never read) and no check of the candidate position
against any other active asteroid. -/

/-- `minSpawnDistance + speedScaledDistance + randomDistanceOffset`
(`client.js:669-674`): `250 + Math.min(350, 100 + playerSpeed * 50)` plus a
random offset in `[0, 300)`. -/
def spawnDistanceCalc (playerSpeed rOffset : ℚ) : ℚ :=
  250 + min 350 (100 + playerSpeed * 50) + rOffset

/-- The spawn position of `spawnAsteroid` (`client.js:688-734`):
the in-path branch jitters the forward direction by
`xSpread, ySpread ∈ [-0.1, 0.1]` and places the asteroid `spawnDistance`
along the normalized result; the near-path branch goes `spawnDistance`
along the forward heading and `pathOffset ∈ [80, 230)` along a
(possibly negated) perpendicular. -/
def spawnPosition (playerPos playerForward : Vec3) (playerSpeed : ℚ)
    (rOffset : ℚ) (inPlayerPath : Bool) (xSpread ySpread : ℚ)
    (negSide : Bool) (pathOffset : ℚ) : Vec3 :=
  let spawnDistance := spawnDistanceCalc playerSpeed rOffset
  if inPlayerPath then
    let directPathVector := Vec3.normalize
      ⟨playerForward.x + xSpread, playerForward.y + ySpread, playerForward.z⟩
    Vec3.add playerPos (Vec3.smul spawnDistance directPathVector)
  else
    let perp₀ := Vec3.normalize ⟨-playerForward.z, 0, playerForward.x⟩
    let perp := if negSide then Vec3.smul (-1) perp₀ else perp₀
    let forwardOffset := Vec3.smul spawnDistance playerForward
    let sideOffset := Vec3.smul pathOffset perp
    Vec3.add (Vec3.add playerPos forwardOffset) sideOffset

/-! ## Difficulty controller (`updateDifficulty`, `client.js:3270-3301`;
`increaseSpeedFixed`, `client.js:3653-3681`) -/

/-- Wave configuration derived from the difficulty level. -/
structure WaveConfig where
  minAsteroidsPerWave : ℤ
  maxAsteroidsPerWave : ℤ
  minWaveDelay : ℚ
  maxWaveDelay : ℚ
deriving DecidableEq, Repr

/-- The `GameClient` fields driving progression: `difficultyLevel`,
`distanceTraveled`, `lastDifficultyUpdate`, the wave configuration, the
speed level, and `controls.baseSpeed`. -/
structure DifficultyState where
  difficultyLevel : ℤ
  distanceTraveled : ℚ
  lastDifficultyUpdate : ℤ
  waveConfig : WaveConfig
  currentSpeedLevel : ℤ
  baseSpeed : ℚ
deriving DecidableEq, Repr

/-- `updateDifficulty` (`client.js:3270-3301`): rate-limited to once per
second; skipped while no distance is tracked; otherwise computes
`1 + Math.floor(distanceTraveled / 300)` and, only when that exceeds the
current level, adopts it and recomputes the wave configuration through the
source's clamped formulas. -/
def updateDifficulty (now : ℤ) (d : DifficultyState) : DifficultyState :=
  if now - d.lastDifficultyUpdate < 1000 then d
  else
    let d₁ := { d with lastDifficultyUpdate := now }
    if d₁.distanceTraveled ≤ 0 then d₁
    else
      let newLevel : ℤ := 1 + ⌊d₁.distanceTraveled / 300⌋
      if newLevel > d₁.difficultyLevel then
        let delayReduction : ℚ := min ((newLevel : ℚ) * 250) 2500
        { d₁ with
          difficultyLevel := newLevel,
          waveConfig :=
            { minAsteroidsPerWave := min (5 + ⌊(newLevel : ℚ) / 2⌋) 12,
              maxAsteroidsPerWave := min (10 + ⌊(newLevel : ℚ) / 2⌋) 20,
              minWaveDelay := max (3000 - delayReduction) 800,
              maxWaveDelay := max (6000 - delayReduction) 1500 } }
      else d₁

/-- `increaseSpeedFixed` (`client.js:3653-3681`): records the new speed
level, adds the fixed increase (display km/h divided by 100) to the base
speed, and additionally increments `difficultyLevel` every second speed
level while it is below 10. -/
def increaseSpeedFixed (newLevel : ℤ) (speedIncrease : ℚ)
    (d : DifficultyState) : DifficultyState :=
  let d₁ := { d with currentSpeedLevel := newLevel,
                     baseSpeed := d.baseSpeed + speedIncrease / 100 }
  if newLevel % 2 = 0 ∧ d₁.difficultyLevel < 10 then
    { d₁ with difficultyLevel := d₁.difficultyLevel + 1 }
  else d₁

/-! ## The shadowed first `updateAsteroids` targeting formula
(`client.js:1288-1336`), used to compare the specified adjustment-strength
formula with the effective one. -/

/-- Proximity factor of the first (shadowed) update for hunters
(`client.js:1303`). -/
def proximityFactorHunter1 (distance : ℚ) : ℚ :=
  max (4/5) (min 3 (800 / max 10 distance))

/-- Proximity factor of the first (shadowed) update for regular asteroids
(`client.js:1306`). -/
def proximityFactorRegular1 (distance : ℚ) : ℚ :=
  max (1/2) (min (3/2) (400 / max 10 distance))

/-- `targetingFactor * targetingSpeed * proximityFactor *
randomAccuracyFactor` (`client.js:1314`): the adjustment-strength formula
of the first (shadowed) update, with the accuracy jitter
`1 - Math.random() * accuracyVariance` passed in (`jitter ∈ (0.7, 1]` for
regular asteroids, `(0.9, 1]` for hunters). -/
def adjustmentStrength1 (isHunter : Bool)
    (targetingFactor targetingSpeed distance jitter : ℚ) : ℚ :=
  targetingFactor * targetingSpeed *
    (if isHunter then proximityFactorHunter1 distance
     else proximityFactorRegular1 distance) * jitter

/-! ## Concrete evaluation states -/

/-- A freshly joined player (`server.js:144-152`): not ready, at the origin,
with health 100 and score 0. -/
def joinedPlayer : Player :=
  { ready := false, position := Vec3.zero, rotation := Vec3.zero,
    health := 100, score := 0 }

/-- A concrete two-player lobby, both players joined and not yet ready. -/
def lobbyServer : ServerState :=
  { players := [(1, joinedPlayer), (2, joinedPlayer)], readyPlayers := 0,
    gameStarted := false }

/-- A concrete client in that lobby (player 1), with a difficulty level
other than 1 so that the absence of a reset is observable. -/
def lobbyClient : ClientState :=
  { playerId := some 1, players := [(1, joinedPlayer), (2, joinedPlayer)],
    isRunning := false, gameStartedField := false, winner := none,
    difficultyLevel := 5, distanceTraveled := 42 }

/-- A concrete active asteroid slot sitting on the player. -/
def hitAsteroid : Asteroid :=
  { id := 7, active := true, inactiveFlag := false, creationTime := 1000,
    pos := Vec3.zero, vel := Vec3.zero, size := 1, targetingFactor := 0,
    targetingSpeed := 0, isHunter := false, isEmergency := false }

/-- A running single-player state at full health whose only active asteroid
is `hitAsteroid`. -/
def fullHealthState : SimState :=
  { asteroids := [hitAsteroid], inactiveAsteroids := [], health := 100,
    lastCollisionTime := 0, eliminated := false, isRunning := true,
    singlePlayerMode := true, gameOverSent := 0 }

/-- A running multiplayer state at health 10 (one hit from elimination). -/
def lowHealthState : SimState :=
  { asteroids := [hitAsteroid], inactiveAsteroids := [], health := 10,
    lastCollisionTime := 0, eliminated := false, isRunning := true,
    singlePlayerMode := false, gameOverSent := 0 }

/-- A running state with an entirely empty pool (used to evaluate the pool
expansion branch). -/
def emptyPoolState : SimState :=
  { asteroids := [], inactiveAsteroids := [], health := 100,
    lastCollisionTime := 0, eliminated := false, isRunning := true,
    singlePlayerMode := true, gameOverSent := 0 }

/-- An active asteroid at distance 5 from the origin. -/
def nearAsteroid : Asteroid :=
  { id := 1, active := true, inactiveFlag := false, creationTime := 1,
    pos := ⟨3, 4, 0⟩, vel := Vec3.zero, size := 1, targetingFactor := 0,
    targetingSpeed := 0, isHunter := false, isEmergency := false }

/-- An active asteroid at distance 10 from the origin. -/
def farAsteroid : Asteroid :=
  { id := 2, active := true, inactiveFlag := false, creationTime := 2,
    pos := ⟨6, 8, 0⟩, vel := Vec3.zero, size := 1, targetingFactor := 0,
    targetingSpeed := 0, isHunter := false, isEmergency := false }

/-- A running state with two simultaneous overlaps: both asteroids are
within the 10.7-unit collision threshold of a player at the origin. -/
def doubleOverlapState : SimState :=
  { asteroids := [nearAsteroid, farAsteroid], inactiveAsteroids := [],
    health := 100, lastCollisionTime := 0, eliminated := false,
    isRunning := true, singlePlayerMode := true, gameOverSent := 0 }

/-- A concrete progression state that has crossed the third 300-unit
milestone (distance 900 at difficulty 1). -/
def milestoneState : DifficultyState :=
  { difficultyLevel := 1, distanceTraveled := 900, lastDifficultyUpdate := 0,
    waveConfig := { minAsteroidsPerWave := 5, maxAsteroidsPerWave := 10,
                    minWaveDelay := 3000, maxWaveDelay := 6000 },
    currentSpeedLevel := 0, baseSpeed := 2/5 }

/-! # Helper lemmas -/

theorem lookupPlayer_setPlayer_self {m : PlayerMap} {pid : ℕ} {p : Player}
    (q : Player) (h : lookupPlayer m pid = some p) :
    lookupPlayer (setPlayer m pid q) pid = some q := by
  induction m with
  | nil => simp [lookupPlayer] at h
  | cons e t ih =>
    by_cases he : e.1 = pid
    · simp [lookupPlayer, setPlayer, List.find?_cons, he]
    · rw [lookupPlayer, setPlayer, List.map_cons, if_neg he,
        List.find?_cons_of_neg _ (by simp [he])]
      rw [lookupPlayer, List.find?_cons_of_neg _ (by simp [he])] at h
      exact ih h

theorem mem_insertByKey {α β : Type} [LinearOrder β] (key : α → β) (a x : α)
    (l : List α) : x ∈ insertByKey key a l ↔ x = a ∨ x ∈ l := by
  induction l with
  | nil => simp [insertByKey]
  | cons b t ih =>
    by_cases hab : key a ≤ key b
    · simp [insertByKey, hab]
    · simp only [insertByKey, if_neg hab, List.mem_cons, ih]
      tauto

theorem mem_sortByKey {α β : Type} [LinearOrder β] (key : α → β) (x : α)
    (l : List α) : x ∈ sortByKey key l ↔ x ∈ l := by
  induction l with
  | nil => simp [sortByKey]
  | cons b t ih =>
    simp only [sortByKey, mem_insertByKey, ih, List.mem_cons]

theorem sorted_insertByKey {α β : Type} [LinearOrder β] (key : α → β) (a : α)
    {l : List α} (h : l.Sorted (fun u v => key u ≤ key v)) :
    (insertByKey key a l).Sorted (fun u v => key u ≤ key v) := by
  induction l with
  | nil => simp [insertByKey]
  | cons b t ih =>
    rw [List.sorted_cons] at h
    by_cases hab : key a ≤ key b
    · rw [insertByKey, if_pos hab, List.sorted_cons]
      refine ⟨?_, List.sorted_cons.mpr h⟩
      intro c hc
      rcases List.mem_cons.mp hc with rfl | hc
      · exact hab
      · exact le_trans hab (h.1 c hc)
    · rw [insertByKey, if_neg hab, List.sorted_cons]
      refine ⟨?_, ih h.2⟩
      intro c hc
      rcases (mem_insertByKey key a c t).mp hc with rfl | hc
      · exact le_of_not_le hab
      · exact h.1 c hc

theorem sorted_sortByKey {α β : Type} [LinearOrder β] (key : α → β)
    (l : List α) : (sortByKey key l).Sorted (fun u v => key u ≤ key v) := by
  induction l with
  | nil => simp [sortByKey]
  | cons b t ih => exact sorted_insertByKey key b ih

theorem sortByKey_head_min {α β : Type} [LinearOrder β] (key : α → β)
    {l t : List α} {x : α} (h : sortByKey key l = x :: t) :
    ∀ y ∈ l, key x ≤ key y := by
  intro y hy
  have hmem : y ∈ x :: t := h ▸ (mem_sortByKey key y l).mpr hy
  rcases List.mem_cons.mp hmem with rfl | hyt
  · exact le_refl _
  · have hs := sorted_sortByKey key l
    rw [h, List.sorted_cons] at hs
    exact hs.1 y hyt

theorem length_insertByKey {α β : Type} [LinearOrder β] (key : α → β) (a : α)
    (l : List α) : (insertByKey key a l).length = l.length + 1 := by
  induction l with
  | nil => simp [insertByKey]
  | cons b t ih =>
    by_cases hab : key a ≤ key b
    · simp [insertByKey, hab]
    · simp [insertByKey, hab, ih]

theorem length_sortByKey {α β : Type} [LinearOrder β] (key : α → β)
    (l : List α) : (sortByKey key l).length = l.length := by
  induction l with
  | nil => rfl
  | cons b t ih => simp [sortByKey, length_insertByKey, ih]

/-! # Theorems settling the claims -/

/-- **C10.** In the server's `update` handler (`server.js:188-204`) the
`gameLost` branch is unreachable: the handler first overwrites the stored
player's health with the incoming `data.health`, so the subsequent guard
`data.health <= 0 && players[playerId].health > 0` can never hold, and the
server never sends a `gameLost` message, for any update message in any
server state. -/
theorem C10_gameLost_unreachable (pid : ℕ) (data : UpdateMsg)
    (st : ServerState) :
    NetMsg.gameLost ∉ (serverHandleUpdate pid data st).toSender ∧
    NetMsg.gameLost ∉ (serverHandleUpdate pid data st).toAll := by
  unfold serverHandleUpdate
  cases h : lookupPlayer st.players pid with
  | none => simp
  | some p =>
    have hl := lookupPlayer_setPlayer_self
      { p with position := data.position, rotation := data.rotation,
               health := data.health, score := data.score } h
    simp only [hl, Option.map_some', Option.getD_some, broadcastGameState]
    refine ⟨?_, by simp⟩
    rw [if_neg]
    · simp
    · rintro ⟨h1, h2⟩
      exact absurd (lt_of_lt_of_le h2 h1) (lt_irrefl 0)

/-- **C4.** Round-trip of a client `update` through the server broadcast and
the client-side merge handler (`network.js:89-112`): when the client's own
stored record still holds the pre-send position and rotation, the server's
`update` handler stores the message's data and rebroadcasts the full state;
merging that echoed state leaves the client's own player's position and
rotation at the pre-send local values, while the stored health is the
server's broadcast health (which equals the health the client sent). -/
theorem C4_update_echo_merge (st : ServerState) (c : ClientState) (pid : ℕ)
    (data : UpdateMsg) (p lp : Player)
    (hs : lookupPlayer st.players pid = some p)
    (hid : c.playerId = some pid)
    (hc : lookupPlayer c.players pid = some lp)
    (hpos : lp.position = data.position) (hrot : lp.rotation = data.rotation) :
    ∃ sp q,
      (serverHandleUpdate pid data st).toAll
        = [NetMsg.gameState (serverHandleUpdate pid data st).state.players
             (serverHandleUpdate pid data st).state.gameStarted] ∧
      lookupPlayer (serverHandleUpdate pid data st).state.players pid
        = some sp ∧
      lookupPlayer ((clientHandleMessage
          (NetMsg.gameStateUpdated
            (serverHandleUpdate pid data st).state.players
            (serverHandleUpdate pid data st).state.gameStarted) c).1).players
          pid
        = some q ∧
      q.position = data.position ∧ q.rotation = data.rotation ∧
      q.health = sp.health ∧ sp.health = data.health := by
  have hsp := lookupPlayer_setPlayer_self
    { p with position := data.position, rotation := data.rotation,
             health := data.health, score := data.score } hs
  simp only [serverHandleUpdate, hs, clientHandleMessage,
    clientMergeGameState, hid, hc, hsp, broadcastGameState]
  exact ⟨_, _, trivial, rfl,
    lookupPlayer_setPlayer_self _ hsp,
    hpos ▸ rfl, hrot ▸ rfl, rfl, rfl⟩

/-- **C1.** Collision damage, cooldown and elimination
(`handleAsteroidCollision`, `client.js:1386-1494`): a hit with the previous
hit more than 150 ms ago applies exactly 10 damage clamped at 0; health
stays in `[0, 100]`; a hit within the cooldown window changes nothing at
all; a hit that takes health from a positive value to 0 performs the
elimination transition — `eliminated = true`, `isRunning = false`, and (in
multiplayer) exactly one `gameOver` notification; and once the game is not
running the effective per-frame update is the identity, so no further
damage is ever applied. -/
theorem C1_damage_cooldown_elimination (now : ℤ) (a : Asteroid)
    (s : SimState) (h0 : 0 ≤ s.health) (h100 : s.health ≤ 100) :
    ((s.lastCollisionTime = 0 ∨ now - s.lastCollisionTime > 150) →
      (handleAsteroidCollision now a s).1.health = max 0 (s.health - 10)) ∧
    (0 ≤ (handleAsteroidCollision now a s).1.health ∧
      (handleAsteroidCollision now a s).1.health ≤ 100) ∧
    (¬(s.lastCollisionTime = 0 ∨ now - s.lastCollisionTime > 150) →
      handleAsteroidCollision now a s = (s, none)) ∧
    ((s.lastCollisionTime = 0 ∨ now - s.lastCollisionTime > 150) →
      0 < s.health → s.health ≤ 10 →
      ((handleAsteroidCollision now a s).1.health = 0 ∧
       (handleAsteroidCollision now a s).1.eliminated = true ∧
       (handleAsteroidCollision now a s).1.isRunning = false ∧
       (s.singlePlayerMode = false →
         (handleAsteroidCollision now a s).1.gameOverSent
           = s.gameOverSent + 1))) ∧
    (∀ now' pos speed s', s'.isRunning = false →
      updateAsteroids2 now' pos speed s' = (s', [])) := by
  refine ⟨?_, ?_, ?_, ?_, ?_⟩
  · intro hcool
    simp only [handleAsteroidCollision]
    rw [if_pos hcool]
    split_ifs <;> rfl
  · simp only [handleAsteroidCollision]
    split_ifs
    all_goals
      first
        | exact ⟨h0, h100⟩
        | exact ⟨le_max_left 0 (s.health - 10),
            max_le (by norm_num) (by linarith)⟩
  · intro hcool
    simp only [handleAsteroidCollision]
    rw [if_neg hcool]
  · intro hcool hpos hlow
    have hclamp : max 0 (s.health - 10) = 0 := max_eq_left (by linarith)
    simp only [handleAsteroidCollision]
    rw [if_pos hcool, if_pos hclamp.le]
    refine ⟨hclamp, rfl, rfl, ?_⟩
    intro hmp
    simp [hmp]
  · intro now' pos speed s' hstop
    unfold updateAsteroids2
    rw [if_pos hstop]

/-- Witness for C1: at health 10 with no prior hit, the collision at time
1000 zeroes health, eliminates the player, stops the game, sends exactly one
`gameOver` notification, and a subsequent tick of the effective update
leaves the eliminated state untouched. -/
theorem C1_damage_cooldown_elimination_witness :
    (handleAsteroidCollision 1000 hitAsteroid lowHealthState).1.health = 0 ∧
    (handleAsteroidCollision 1000 hitAsteroid lowHealthState).1.eliminated
      = true ∧
    (handleAsteroidCollision 1000 hitAsteroid lowHealthState).1.isRunning
      = false ∧
    (handleAsteroidCollision 1000 hitAsteroid lowHealthState).1.gameOverSent
      = lowHealthState.gameOverSent + 1 ∧
    updateAsteroids2 2000 Vec3.zero 1
        (handleAsteroidCollision 1000 hitAsteroid lowHealthState).1
      = ((handleAsteroidCollision 1000 hitAsteroid lowHealthState).1, []) := by
  have h := C1_damage_cooldown_elimination 1000 hitAsteroid lowHealthState
    (by norm_num [lowHealthState]) (by norm_num [lowHealthState])
  obtain ⟨-, -, -, h4, h5⟩ := h
  have h4' := h4 (Or.inl rfl) (by norm_num [lowHealthState])
    (by norm_num [lowHealthState])
  exact ⟨h4'.1, h4'.2.1, h4'.2.2.1, h4'.2.2.2 rfl, h5 _ _ _ _ h4'.2.2.1⟩

/-- **C3.** (code-bug evaluation) `handleAsteroidCollision` breaks the
flag/list agreement the claim states: at full health, colliding with the
single active asteroid removes it from the active list but leaves its
`active` flag `true` — the handler assigns the distinct, read-nowhere
`inactive` property (`client.js:1404`) instead of clearing `active` — and
the slot is returned to neither list, so a slot with `active = true`
belongs to no list. -/
theorem C3_collision_breaks_flag_list_agreement :
    (handleAsteroidCollision 2000 hitAsteroid fullHealthState).2
      = some { hitAsteroid with inactiveFlag := true } ∧
    (Asteroid.active { hitAsteroid with inactiveFlag := true }) = true ∧
    (handleAsteroidCollision 2000 hitAsteroid fullHealthState).1.asteroids
      = [] ∧
    (handleAsteroidCollision 2000 hitAsteroid
        fullHealthState).1.inactiveAsteroids = [] := by
  norm_num [handleAsteroidCollision, fullHealthState, hitAsteroid]

/-- **C5.** (code-bug evaluation) After both players of a two-player lobby
send `ready`, the server does set `gameStarted = true` and broadcasts a
notification — but that notification has type `gameStart`, for which the
client's `handleMessage` has no case, so the client is left completely
unchanged: `isRunning` stays `false` and `difficultyLevel` is not reset.
The server's accompanying `gameState` broadcast is equally unhandled.  Only
a `gameStarted`-typed message — which this server never sends — makes
`isRunning` true and resets `difficultyLevel` to 1. -/
theorem C5_gameStart_notification_dropped :
    (serverHandleReady 2 (serverHandleReady 1 lobbyServer).state).state.gameStarted
      = true ∧
    NetMsg.gameStart
      ∈ (serverHandleReady 2 (serverHandleReady 1 lobbyServer).state).toAll ∧
    clientHandleMessage NetMsg.gameStart lobbyClient = (lobbyClient, []) ∧
    clientHandleMessage
        (broadcastGameState
          (serverHandleReady 2 (serverHandleReady 1 lobbyServer).state).state)
        lobbyClient
      = (lobbyClient, []) ∧
    lobbyClient.isRunning = false ∧ lobbyClient.difficultyLevel = 5 ∧
    (clientHandleMessage NetMsg.gameStarted lobbyClient).1.isRunning
      = true ∧
    (clientHandleMessage NetMsg.gameStarted lobbyClient).1.difficultyLevel
      = 1 := by
  refine ⟨?_, ?_, rfl, ?_, rfl, rfl, rfl, rfl⟩ <;>
    simp [serverHandleReady, lobbyServer, lobbyClient, joinedPlayer,
      lookupPlayer, setPlayer, broadcastGameState, clientHandleMessage]

/-- **C6.** (code-bug evaluation) `spawnAsteroid` enforces no spacing: the
configured `minimumAsteroidSpacing = 60` (`client.js:327`) is never read,
and the spawn position is a function of the player transform and the random
draws alone, with no reference to any other active asteroid.  With the
player stationary at the origin (forward `(0,0,-1)`, base speed 0.4), two
consecutive in-path spawns with zero spread and random distance offsets 0
and 10 land at `(0,0,-370)` and `(0,0,-380)` — 10 units apart, far below
the 60-unit threshold — and the first asteroid is still active when the
second spawns. -/
theorem C6_spawn_ignores_minimum_spacing :
    spawnPosition Vec3.zero ⟨0, 0, -1⟩ (2/5) 0 true 0 0 false 0
      = ⟨0, 0, -370⟩ ∧
    spawnPosition Vec3.zero ⟨0, 0, -1⟩ (2/5) 10 true 0 0 false 0
      = ⟨0, 0, -380⟩ ∧
    Vec3.distSq ⟨0, 0, -370⟩ ⟨0, 0, -380⟩ = 100 ∧ (100 : ℚ) < 60 ^ 2 := by
  refine ⟨?_, ?_, ?_, by norm_num⟩ <;>
    simp [spawnPosition, spawnDistanceCalc, Vec3.normalize, Vec3.len,
      Vec3.normSq, Vec3.distSq, Vec3.sub, Vec3.add, Vec3.smul, Vec3.zero,
      ratSqrt] <;> norm_num

/-- **C7.** On every tick of the effective `updateAsteroids` (the second
definition, `client.js:3986-4102` — the one actually bound on `GameClient`),
after the motion pass at most one hit candidate is processed: the candidates
are sorted by distance to the player and only the first — a candidate at
minimal distance — is passed to `handleAsteroidCollision`, so a frame with
several simultaneous overlaps applies at most one damage event. -/
theorem C7_at_most_one_nearest_hit (now : ℤ) (pos : Vec3) (speed : ℚ)
    (s : SimState) :
    (updateAsteroids2 now pos speed s).2.length ≤ 1 ∧
    (∀ c ∈ (updateAsteroids2 now pos speed s).2,
      c ∈ collisionCandidates pos speed s ∧
      ∀ b ∈ collisionCandidates pos speed s,
        Vec3.distSq c.pos pos ≤ Vec3.distSq b.pos pos) ∧
    (s.isRunning = true → collisionCandidates pos speed s ≠ [] →
      ∃ c, (updateAsteroids2 now pos speed s).2 = [c]) := by
  cases hrun : s.isRunning with
  | false =>
    rw [updateAsteroids2, if_pos hrun]
    exact ⟨by simp, by simp, by simp⟩
  | true =>
    have hcond : ¬(s.isRunning = false) := by simp [hrun]
    rcases hsort : sortByKey (fun a : Asteroid => Vec3.distSq a.pos pos)
        (collisionCandidates pos speed s) with _ | ⟨c, rest⟩
    · have hnil : collisionCandidates pos speed s = [] := by
        have hlen := length_sortByKey (fun a : Asteroid => Vec3.distSq a.pos pos)
          (collisionCandidates pos speed s)
        rw [hsort] at hlen
        exact List.length_eq_zero.mp hlen.symm
      simp only [updateAsteroids2, if_neg hcond, hsort]
      exact ⟨by simp, by simp, fun _ hne => absurd hnil hne⟩
    · have hmem : c ∈ collisionCandidates pos speed s := by
        refine (mem_sortByKey (fun a : Asteroid => Vec3.distSq a.pos pos) c
          (collisionCandidates pos speed s)).mp ?_
        rw [hsort]
        exact List.mem_cons_self c rest
      have hmin := sortByKey_head_min (fun a : Asteroid => Vec3.distSq a.pos pos) hsort
      simp only [updateAsteroids2, if_neg hcond, hsort]
      refine ⟨by simp, ?_, fun _ _ => ⟨c, rfl⟩⟩
      intro x hx
      have hxc : x = c := by simpa using hx
      subst hxc
      exact ⟨hmem, hmin⟩

/-- Witness for C7: with two asteroids simultaneously overlapping a player
at the origin (distances 5 and 10, both below the 10.7 threshold), the tick
processes exactly one candidate, namely the nearer asteroid. -/
theorem C7_at_most_one_nearest_hit_witness :
    (updateAsteroids2 5 Vec3.zero (2/5) doubleOverlapState).2.length ≤ 1 ∧
    (∃ c, (updateAsteroids2 5 Vec3.zero (2/5) doubleOverlapState).2 = [c]) ∧
    (updateAsteroids2 5 Vec3.zero (2/5) doubleOverlapState).2
      = [nearAsteroid] := by
  have hcands : collisionCandidates Vec3.zero (2/5) doubleOverlapState
      = [farAsteroid, nearAsteroid] := by
    norm_num [collisionCandidates, doubleOverlapState, updateLoop,
      moveAsteroid, nearAsteroid, farAsteroid, distLT, distGT,
      collisionThreshold, maxDistance2, Vec3.distSq, Vec3.normSq, Vec3.sub,
      Vec3.add, Vec3.smul, Vec3.zero]
  refine ⟨(C7_at_most_one_nearest_hit 5 Vec3.zero (2/5) doubleOverlapState).1,
    (C7_at_most_one_nearest_hit 5 Vec3.zero (2/5) doubleOverlapState).2.2
      rfl (by rw [hcands]; simp), ?_⟩
  rw [updateAsteroids2, if_neg (by norm_num [doubleOverlapState]), hcands]
  norm_num [sortByKey, insertByKey, nearAsteroid, farAsteroid, Vec3.distSq,
    Vec3.normSq, Vec3.sub, Vec3.zero]

/-- **C2.** The pool acquire contract (`getAsteroidFromPool`,
`client.js:435-584`): acquire never returns `null`; when a free slot
exists, it is returned marked active; with no free slot and fewer than 350
total slots the pool grows by `max(10, ⌊20% · total⌋)` slots and a fresh
slot — stamped with the current time and marked active — is returned; at
the ceiling, the active slot with the smallest creation stamp is recycled:
re-stamped with the current time, re-activated and returned.  The recycle
clause is stated for states whose active slots all carry a creation stamp
(every slot entering the active list is stamped by `spawnAsteroid`
immediately after acquisition, or by the pool expansion itself). -/
theorem C2_pool_acquire (now : ℤ) (freshId : ℕ) (s : SimState)
    (hstamped : ∀ a ∈ s.asteroids, a.creationTime ≠ 0) :
    ((getAsteroidFromPool now freshId s).1.isSome = true) ∧
    (∀ a, s.inactiveAsteroids.getLast? = some a →
      (getAsteroidFromPool now freshId s).1
        = some { a with active := true }) ∧
    (s.inactiveAsteroids = [] → s.asteroids.length < 350 →
      ((getAsteroidFromPool now freshId s).2.asteroids.length
          + (getAsteroidFromPool now freshId s).2.inactiveAsteroids.length
        = s.asteroids.length + max 10 (s.asteroids.length / 5) ∧
       ∃ r, (getAsteroidFromPool now freshId s).1 = some r ∧
         r.id = freshId ∧ r.active = true ∧ r.creationTime = now)) ∧
    (s.inactiveAsteroids = [] → 350 ≤ s.asteroids.length →
      ∃ old ∈ s.asteroids,
        (∀ b ∈ s.asteroids, old.creationTime ≤ b.creationTime) ∧
        (getAsteroidFromPool now freshId s).1
          = some { old with creationTime := now, active := true }) := by
  cases hL : s.inactiveAsteroids.getLast? with
  | some a =>
    have hne : s.inactiveAsteroids ≠ [] := by
      intro h0
      rw [h0] at hL
      exact Option.noConfusion hL
    simp only [getAsteroidFromPool, hL]
    refine ⟨rfl, ?_, fun h0 => absurd h0 hne, fun h0 => absurd h0 hne⟩
    intro b hb
    injection hb with hab
    subst hab
    rfl
  | none =>
    have hempty : s.inactiveAsteroids = [] :=
      List.getLast?_eq_none_iff.mp hL
    by_cases hsize : s.asteroids.length + s.inactiveAsteroids.length < 350
    · -- expansion branch
      have hlt : s.asteroids.length < 350 := by
        rw [hempty] at hsize
        simpa using hsize
      simp only [getAsteroidFromPool, hL, if_pos hsize]
      have hlast :
          (s.asteroids ++
              [{ (newAsteroid freshId) with
                  active := true, creationTime := now }]).getLast?
          = some { (newAsteroid freshId) with
              active := true, creationTime := now } := by
        simp
      refine ⟨?_, ?_, ?_, ?_⟩
      · rw [hlast]
        rfl
      · intro b hb
        exact Option.noConfusion hb
      · intro _ _
        constructor
        · have hexp : 10 ≤ max 10 ((s.asteroids.length
              + s.inactiveAsteroids.length) / 5) := le_max_left _ _
          simp only [List.length_append, List.length_map, List.length_range,
            List.length_cons, List.length_nil, hempty]
          simp only [hempty, List.length_nil] at hexp ⊢
          omega
        · exact ⟨_, hlast, rfl, rfl, rfl⟩
      · intro _ h350
        rw [hempty] at hsize
        simp at hsize
        omega
    · -- ceiling branch
      have h350 : 350 ≤ s.asteroids.length := by
        rw [hempty] at hsize
        simpa using not_lt.mp hsize
      cases hA : s.asteroids with
      | nil =>
        rw [hA] at h350
        simp at h350
      | cons a0 t =>
        have h00 : a0.creationTime ≠ 0 := hstamped a0 (by rw [hA]; simp)
        have hlen : (sortByKey (fun a : Asteroid => a.creationTime)
            (a0 :: t)).length = (a0 :: t).length :=
          length_sortByKey _ _
        cases hS : sortByKey (fun a : Asteroid => a.creationTime)
            (a0 :: t) with
        | nil =>
          rw [hS] at hlen
          simp at hlen
        | cons old restA =>
          have hold : old ∈ a0 :: t := by
            refine (mem_sortByKey (fun a : Asteroid => a.creationTime) old
              (a0 :: t)).mp ?_
            rw [hS]
            exact List.mem_cons_self old restA
          have hmin : ∀ b ∈ a0 :: t, old.creationTime ≤ b.creationTime :=
            sortByKey_head_min (fun a : Asteroid => a.creationTime) hS
          have hAlen : s.asteroids.length = (a0 :: t).length := by rw [hA]
          have hIlen : s.inactiveAsteroids.length = 0 := by
            rw [hempty]
            rfl
          simp only [getAsteroidFromPool, hL]
          rw [if_neg hsize, hA]
          simp only [if_pos h00, hS]
          refine ⟨rfl, ?_, ?_, ?_⟩
          · intro b hb
            exact Option.noConfusion hb
          · intro h0 hlt
            omega
          · intro _ _
            exact ⟨old, hold, hmin, rfl⟩

/-- Witness for C2, at a pool with no slots at all: the acquire still
succeeds, growing the pool by the minimum expansion of 10 and returning the
first new slot, stamped with the current time and marked active. -/
theorem C2_pool_acquire_witness :
    ((getAsteroidFromPool 123 0 emptyPoolState).1.isSome = true) ∧
    ((getAsteroidFromPool 123 0 emptyPoolState).2.asteroids.length
        + (getAsteroidFromPool 123 0
            emptyPoolState).2.inactiveAsteroids.length
      = emptyPoolState.asteroids.length
        + max 10 (emptyPoolState.asteroids.length / 5) ∧
     ∃ r, (getAsteroidFromPool 123 0 emptyPoolState).1 = some r ∧
       r.id = 0 ∧ r.active = true ∧ r.creationTime = 123) := by
  have h := C2_pool_acquire 123 0 emptyPoolState (by decide)
  exact ⟨h.1, h.2.2.1 rfl (by decide)⟩

/-- Witness for C4 at a concrete round trip: player 1 of the two-player
lobby sends an update with its current (zero) position/rotation and health
70; the echoed broadcast, merged, keeps the local position/rotation and
stores the server's health 70. -/
theorem C4_update_echo_merge_witness :
    ∃ sp q,
      (serverHandleUpdate 1 ⟨Vec3.zero, Vec3.zero, 70, 3⟩ lobbyServer).toAll
        = [NetMsg.gameState
            (serverHandleUpdate 1 ⟨Vec3.zero, Vec3.zero, 70, 3⟩
              lobbyServer).state.players
            (serverHandleUpdate 1 ⟨Vec3.zero, Vec3.zero, 70, 3⟩
              lobbyServer).state.gameStarted] ∧
      lookupPlayer (serverHandleUpdate 1 ⟨Vec3.zero, Vec3.zero, 70, 3⟩
          lobbyServer).state.players 1 = some sp ∧
      lookupPlayer ((clientHandleMessage
          (NetMsg.gameStateUpdated
            (serverHandleUpdate 1 ⟨Vec3.zero, Vec3.zero, 70, 3⟩
              lobbyServer).state.players
            (serverHandleUpdate 1 ⟨Vec3.zero, Vec3.zero, 70, 3⟩
              lobbyServer).state.gameStarted) lobbyClient).1).players 1
        = some q ∧
      q.position = Vec3.zero ∧ q.rotation = Vec3.zero ∧
      q.health = sp.health ∧ sp.health = 70 :=
  C4_update_echo_merge lobbyServer lobbyClient 1
    ⟨Vec3.zero, Vec3.zero, 70, 3⟩ joinedPlayer joinedPlayer
    rfl rfl rfl rfl rfl

/-- **C8.** (counterexample) The claim's adjustment-strength formula is not
the one the effective tick computes.  For an asteroid with `targetingFactor
= 1/2` and `targetingSpeed = 1/10` at distance 500 from the player (e.g.
asteroid at the origin, player at `(300, 400, 0)`), the effective update
(`client.js:4045`) computes `targetingFactor × 0.012 × proximityFactor =
3/500`, while the claimed formula `targetingFactor × targetingSpeed ×
proximityFactor × accuracyJitter` — in which the jitter
`1 - Math.random() * 0.3` of a regular asteroid is at least `7/10` and
enters monotonically — is at least `7/250 > 3/500` there.  The claimed
formula is computed only by the first `updateAsteroids` definition
(`client.js:1314`), which the second definition shadows. -/
theorem C8_adjustment_formula_counterexample :
    Vec3.distSq ⟨0, 0, 0⟩ ⟨300, 400, 0⟩ = 500 ^ 2 ∧
    adjustmentStrength2 (1/2) 500 = 3/500 ∧
    adjustmentStrength1 false (1/2) (1/10) 500 (7/10) = 7/250 ∧
    (3/500 : ℚ) < 7/250 := by
  refine ⟨?_, ?_, ?_, by norm_num⟩ <;>
    norm_num [adjustmentStrength2, adjustmentStrength1, proximityFactor2,
      proximityFactorRegular1, max_def, min_def, Vec3.distSq, Vec3.normSq,
      Vec3.sub]

/-- **C8.** (amended) In the effective update, every asteroid with
`targetingFactor > 0` gets the velocity `speedFactor · normalize((1 − a) ·
currentDir + a · toPlayer)` with `a = targetingFactor × 0.012 ×
proximityFactor`; the proximity factor is clamped to `[1/2, 2]`, so
`a ≤ 0.024 × targetingFactor`, and `a < 1` for every targeting factor up
to 40 (far beyond anything `spawnAsteroid` assigns): the asteroid never
snaps to the ideal direction in a single tick. -/
theorem C8_effective_blend_bounded (pos : Vec3) (speed : ℚ) (a : Asteroid)
    (d tF : ℚ) (htF0 : 0 ≤ tF) (htF : tF ≤ 40) :
    (1/2 ≤ proximityFactor2 d ∧ proximityFactor2 d ≤ 2) ∧
    adjustmentStrength2 tF d ≤ tF * (24/1000) ∧
    adjustmentStrength2 tF d < 1 ∧
    (a.targetingFactor > 0 →
      (moveAsteroid pos speed a).vel
        = Vec3.smul (1/5 + speed * (3/100))
            (Vec3.normalize (Vec3.add
              (Vec3.smul (1 - adjustmentStrength2 a.targetingFactor
                  (ratSqrt (Vec3.distSq a.pos pos)))
                (Vec3.normalize a.vel))
              (Vec3.smul (adjustmentStrength2 a.targetingFactor
                  (ratSqrt (Vec3.distSq a.pos pos)))
                (Vec3.normalize (Vec3.sub pos a.pos)))))) := by
  have hpf1 : (1/2 : ℚ) ≤ proximityFactor2 d := le_max_left _ _
  have hpf2 : proximityFactor2 d ≤ 2 :=
    max_le (by norm_num) (min_le_left _ _)
  have hb : adjustmentStrength2 tF d ≤ tF * (24/1000) := by
    unfold adjustmentStrength2
    calc tF * (12/1000) * proximityFactor2 d
        ≤ tF * (12/1000) * 2 :=
          mul_le_mul_of_nonneg_left hpf2 (mul_nonneg htF0 (by norm_num))
      _ = tF * (24/1000) := by ring
  refine ⟨⟨hpf1, hpf2⟩, hb, ?_, ?_⟩
  · calc adjustmentStrength2 tF d ≤ tF * (24/1000) := hb
      _ ≤ 40 * (24/1000) := by nlinarith
      _ < 1 := by norm_num
  · intro htgt
    simp only [moveAsteroid, if_pos htgt]

/-- Witness for C8: at targeting factor 1 and distance 100 the effective
adjustment strength is below 1. -/
theorem C8_effective_blend_bounded_witness :
    adjustmentStrength2 1 100 < 1 ∧ (0 : ℚ) ≤ 1 ∧ (1 : ℚ) ≤ 40 :=
  ⟨(C8_effective_blend_bounded Vec3.zero 1 (newAsteroid 0) 100 1
      (by norm_num) (by norm_num)).2.2.1,
    by norm_num, by norm_num⟩

/-- **C9.** Difficulty progression (`updateDifficulty`,
`client.js:3270-3301`; `increaseSpeedFixed`, `client.js:3653-3681`):
neither operation ever lowers `difficultyLevel`; and whenever
`updateDifficulty` changes the level, the new level is
`1 + ⌊distanceTraveled / 300⌋` and the recomputed wave parameters are
clamped — per-wave minimum count at most 12, maximum count at most 20,
minimum wave delay at least 800 ms, maximum wave delay at least 1500 ms. -/
theorem C9_difficulty_monotone_clamped (now : ℤ) (d : DifficultyState) :
    d.difficultyLevel ≤ (updateDifficulty now d).difficultyLevel ∧
    (∀ nl si, d.difficultyLevel
      ≤ (increaseSpeedFixed nl si d).difficultyLevel) ∧
    ((updateDifficulty now d).difficultyLevel ≠ d.difficultyLevel →
      ((updateDifficulty now d).difficultyLevel
          = 1 + ⌊d.distanceTraveled / 300⌋ ∧
        (updateDifficulty now d).waveConfig.minAsteroidsPerWave ≤ 12 ∧
        (updateDifficulty now d).waveConfig.maxAsteroidsPerWave ≤ 20 ∧
        800 ≤ (updateDifficulty now d).waveConfig.minWaveDelay ∧
        1500 ≤ (updateDifficulty now d).waveConfig.maxWaveDelay)) := by
  refine ⟨?_, ?_, ?_⟩
  · simp only [updateDifficulty]
    split_ifs with h1 h2 h3
    · exact le_rfl
    · exact le_rfl
    · exact le_of_lt h3
    · exact le_rfl
  · intro nl si
    simp only [increaseSpeedFixed]
    split_ifs with h1
    · show d.difficultyLevel ≤ d.difficultyLevel + 1
      omega
    · exact le_rfl
  · intro hne
    simp only [updateDifficulty] at hne ⊢
    split_ifs at hne ⊢ with h1 h2 h3
    · exact absurd rfl hne
    · exact absurd rfl hne
    · exact ⟨rfl, min_le_right _ _, min_le_right _ _,
        le_max_right _ _, le_max_right _ _⟩
    · exact absurd rfl hne

/-- Witness for C9: crossing the third milestone (distance 900 at level 1)
raises the level to 4 and recomputes clamped wave parameters. -/
theorem C9_difficulty_monotone_clamped_witness :
    milestoneState.difficultyLevel
      ≤ (updateDifficulty 2000 milestoneState).difficultyLevel ∧
    (updateDifficulty 2000 milestoneState).difficultyLevel = 4 ∧
    (updateDifficulty 2000 milestoneState).waveConfig.minAsteroidsPerWave
      ≤ 12 ∧
    800 ≤ (updateDifficulty 2000 milestoneState).waveConfig.minWaveDelay := by
  have hlv : (updateDifficulty 2000 milestoneState).difficultyLevel = 4 := by
    norm_num [updateDifficulty, milestoneState]
  obtain ⟨h1, -, h3⟩ := C9_difficulty_monotone_clamped 2000 milestoneState
  have h3' := h3 (by rw [hlv]; norm_num [milestoneState])
  exact ⟨h1, hlv, h3'.2.1, h3'.2.2.2.1⟩

end SpaceRace
